import Mathlib

/- Shallow embedding of src/app.py (Bengaluru housing dashboard).

   The embedding covers the two components the specification describes:
   the Loader/Cleaner (the function load_data, lines 12 to 41 of app.py,
   with its inner helper clean_sqft and the BHK lambda) and the
   Presentation Dispatcher (the selected_plot startswith chain, lines
   103 to 112).

   Modelling conventions:
   - Python strings are lists of characters (PyStr).
   - Table cells are the inductive type Cell: a cell is NaN (Cell.na,
     the pandas missing marker), a number (Cell.num, modelled as a
     rational; Python floats such as inf and nan, and exotic literal
     forms such as underscore separators and non-ASCII digits, are
     outside the model and treated as parse failures), or a string
     (Cell.str).
   - A Python exception escaping load_data is modelled by Except.error;
     the except clause inside clean_sqft is modelled by the Option
     returned from the try body being matched back into a Cell.
   - pandas DataFrames are lists of records; the column-wise operations
     of app.py (apply, dropna, boolean filtering, arithmetic) act
     row-wise, which the list pipeline mirrors, including the fact that
     a raised exception aborts the whole computation at the first
     offending row. -/

abbrev PyStr : Type := List Char

/-- Whitespace as recognised by Python str.strip and by float and int
conversion: space, tab, newline, carriage return, vertical tab, form feed. -/
def pyIsSpace (c : Char) : Bool :=
  c == ' ' || c == '\t' || c == '\n' || c == '\r' || c == '\x0b' || c == '\x0c'

/-- Python str.strip with no argument: remove leading and trailing whitespace. -/
def pyStrip (s : PyStr) : PyStr :=
  ((s.dropWhile pyIsSpace).reverse.dropWhile pyIsSpace).reverse

/-- Python str.split with an explicit one-character separator: split at every
occurrence of the separator, keeping empty segments.  The result is always
nonempty. -/
def splitOnChar (c : Char) : PyStr → List PyStr
  | [] => [[]]
  | x :: xs =>
    match splitOnChar c xs with
    | [] => [[]]
    | h :: t => if x == c then [] :: h :: t else (x :: h) :: t

/-- First element of a split result (Python subscript [0]; the splits used
here are always nonempty). -/
def firstPart : List PyStr → PyStr
  | [] => []
  | h :: _ => h

/-- Python membership test of a single character in a string. -/
def containsChar (c : Char) : PyStr → Bool
  | [] => false
  | x :: xs => (x == c) || containsChar c xs

/-- Python str.startswith.  Recursion is on the pattern so that the empty
pattern succeeds without inspecting the string. -/
def startsWithStr (s p : PyStr) : Bool :=
  match p, s with
  | [], _ => true
  | _ :: _, [] => false
  | b :: p2, a :: s2 => (a == b) && startsWithStr s2 p2

/-- Python substring membership test (the in operator on strings). -/
def containsStr : PyStr → PyStr → Bool
  | [], p => p.isEmpty
  | a :: s, p => startsWithStr (a :: s) p || containsStr s p

/-- Value of a nonempty list of decimal digits. -/
def digitsToNat (l : List Char) : ℕ :=
  l.foldl (fun a c => 10 * a + (c.toNat - 48)) 0

/-- Mantissa part of a Python float literal: digits, optionally a decimal
point with further digits, at least one digit overall. -/
def parseMantissa (s : PyStr) : Option ℚ :=
  let ip := s.takeWhile Char.isDigit
  let rest := s.dropWhile Char.isDigit
  match rest with
  | [] => if ip.isEmpty then none else some ((digitsToNat ip : ℕ) : ℚ)
  | '.' :: fp =>
    if fp.all Char.isDigit && !(ip.isEmpty && fp.isEmpty) then
      some ((digitsToNat ip : ℚ) + (digitsToNat fp : ℚ) / (10 : ℚ) ^ fp.length)
    else none
  | _ :: _ => none

/-- Split a candidate float literal at the first exponent marker e or E. -/
def splitAtExp : PyStr → PyStr × Option PyStr
  | [] => ([], none)
  | c :: r =>
    if c == 'e' || c == 'E' then ([], some r)
    else
      match splitAtExp r with
      | (m, e) => (c :: m, e)

/-- Exponent of a Python float literal: optional sign and digits. -/
def parseExpDigits (s : PyStr) : Option ℤ :=
  match s with
  | '+' :: r =>
    if !r.isEmpty && r.all Char.isDigit then some ((digitsToNat r : ℕ) : ℤ) else none
  | '-' :: r =>
    if !r.isEmpty && r.all Char.isDigit then some (-((digitsToNat r : ℕ) : ℤ)) else none
  | r =>
    if !r.isEmpty && r.all Char.isDigit then some ((digitsToNat r : ℕ) : ℤ) else none

/-- Unsigned Python float literal: mantissa and optional exponent. -/
def pyFloatCore (s : PyStr) : Option ℚ :=
  match splitAtExp s with
  | (m, none) => parseMantissa m
  | (m, some e) =>
    match parseMantissa m, parseExpDigits e with
    | some v, some k => some (v * (10 : ℚ) ^ k)
    | _, _ => none

/-- Signed Python float literal. -/
def pyFloatSigned (s : PyStr) : Option ℚ :=
  match s with
  | '+' :: r => pyFloatCore r
  | '-' :: r => (pyFloatCore r).map (fun v => -v)
  | r => pyFloatCore r

/-- Python float applied to a string: surrounding whitespace is tolerated,
then an optional sign and a float literal.  none models a ValueError. -/
def pyFloat (s : PyStr) : Option ℚ :=
  pyFloatSigned (pyStrip s)

/-- Digits of a Python int literal. -/
def pyIntDigits (s : PyStr) : Option ℤ :=
  if !s.isEmpty && s.all Char.isDigit then some ((digitsToNat s : ℕ) : ℤ) else none

/-- Python int applied to a string: surrounding whitespace is tolerated,
then an optional sign and decimal digits.  none models a ValueError. -/
def pyInt (s : PyStr) : Option ℤ :=
  match pyStrip s with
  | '+' :: r => pyIntDigits r
  | '-' :: r => (pyIntDigits r).map (fun n => -n)
  | r => pyIntDigits r

/-- A pandas cell: missing (NaN), numeric, or a string. -/
inductive Cell : Type where
  | na : Cell
  | num : ℚ → Cell
  | str : PyStr → Cell
deriving DecidableEq

/-- The pandas missing test used by dropna. -/
def isNa : Cell → Bool
  | Cell.na => true
  | Cell.num _ => false
  | Cell.str _ => false

/-- Map a fallible function over a list, failing at the first failure
(the semantics of a Python list comprehension whose body may raise). -/
def mapO {α β : Type} (f : α → Option β) : List α → Option (List β)
  | [] => some []
  | a :: l =>
    match f a with
    | none => none
    | some b =>
      match mapO f l with
      | none => none
      | some l2 => some (b :: l2)

/-- Map a function that may raise over a list, propagating the first
exception (the semantics of pandas Series.apply). -/
def mapE {α β : Type} (f : α → Except Unit β) : List α → Except Unit (List β)
  | [] => Except.ok []
  | a :: l =>
    match f a with
    | Except.error e => Except.error e
    | Except.ok b =>
      match mapE f l with
      | Except.error e => Except.error e
      | Except.ok l2 => Except.ok (b :: l2)

/-- numpy mean of a list (only ever used on nonempty lists here). -/
def listMean (l : List ℚ) : ℚ :=
  l.sum / (l.length : ℚ)

/-- The try body of clean_sqft (app.py lines 17 to 23).  A returned none
models an exception inside the body, caught by the except clause.
On a string containing a hyphen, split at every hyphen, strip and parse
each part, and return the numpy mean of the parts; otherwise parse the
prefix of str(x) before the first space character.  On a float input,
str followed by float is the identity; on NaN it yields NaN again, which
the caller also encodes as Cell.na. -/
def sqftBody (x : Cell) : Option ℚ :=
  match x with
  | Cell.na => none
  | Cell.num q => some q
  | Cell.str s =>
    if containsChar '-' s then
      match mapO (fun p => pyFloat (pyStrip p)) (splitOnChar '-' s) with
      | some vals => some (listMean vals)
      | none => none
    else pyFloat (firstPart (splitOnChar ' ' s))

/-- clean_sqft (app.py lines 16 to 25): the try body with every failure
turned into NaN. -/
def clean_sqft (x : Cell) : Cell :=
  match sqftBody x with
  | some v => Cell.num v
  | none => Cell.na

/-- The characters of the substring test target BHK. -/
def bhkTok : PyStr := ['B', 'H', 'K']

/-- The characters of the substring test target Bedroom. -/
def bedroomTok : PyStr := ['B', 'e', 'd', 'r', 'o', 'o', 'm']

/-- The BHK lambda of app.py line 31: on a string containing BHK or
Bedroom, int of the first space-delimited token, with a parse failure
raising (the lambda has no try clause); otherwise NaN. -/
def bhkOfSize (x : Cell) : Except Unit Cell :=
  match x with
  | Cell.str s =>
    if containsStr s bhkTok || containsStr s bedroomTok then
      match pyInt (firstPart (splitOnChar ' ' s)) with
      | some n => Except.ok (Cell.num (n : ℚ))
      | none => Except.error ()
    else Except.ok Cell.na
  | _ => Except.ok Cell.na

/-- A raw record as read from the CSV: the five columns app.py uses. -/
structure RawRecord : Type where
  area_type : Cell
  size : Cell
  total_sqft : Cell
  price : Cell
  location : Cell
deriving DecidableEq

/-- A row of the working DataFrame after the BHK column is added. -/
structure Row : Type where
  area_type : Cell
  size : Cell
  total_sqft : Cell
  price : Cell
  location : Cell
  BHK : Cell
  price_per_sqft : Cell
deriving DecidableEq

/-- Adding the BHK column to a record (app.py line 31); price_per_sqft
does not exist yet and is recorded as NaN. -/
def withBHK (r : RawRecord) : Except Unit Row :=
  match bhkOfSize r.size with
  | Except.error e => Except.error e
  | Except.ok b =>
    Except.ok
      { area_type := r.area_type, size := r.size, total_sqft := r.total_sqft,
        price := r.price, location := r.location, BHK := b,
        price_per_sqft := Cell.na }

/-- The dropna test of app.py line 34: all four critical cells present. -/
def keepRow (r : Row) : Bool :=
  !isNa r.BHK && !isNa r.total_sqft && !isNa r.price && !isNa r.location

/-- One cell of the price_per_sqft column (app.py line 37):
price * 100000 / total_sqft.  NaN operands give NaN; a string operand
raises a TypeError, since clean_sqft has already made total_sqft numeric
and a string price cannot be divided. -/
def ppsVal : Cell → Cell → Except Unit Cell
  | Cell.num p, Cell.num t => Except.ok (Cell.num (p * 100000 / t))
  | Cell.na, _ => Except.ok Cell.na
  | _, Cell.na => Except.ok Cell.na
  | _, _ => Except.error ()

/-- Filling the price_per_sqft column of one row. -/
def ppsStep (r : Row) : Except Unit Row :=
  match ppsVal r.price r.total_sqft with
  | Except.error e => Except.error e
  | Except.ok v => Except.ok { r with price_per_sqft := v }

/-- The outlier test of app.py line 40: the BHK cell compares below ten.
A NaN comparison in pandas is false. -/
def cellLtTen : Cell → Bool
  | Cell.num q => decide (q < 10)
  | Cell.na => false
  | Cell.str _ => false

/-- Row form of the outlier filter of app.py line 40. -/
def bhkUnderTen (r : Row) : Bool :=
  cellLtTen r.BHK

/-- app.py lines 27 and 30: replace total_sqft by its cleaned value in
every row, then drop the rows whose size is missing. -/
def prepRows (rows : List RawRecord) : List RawRecord :=
  (rows.map fun r => { r with total_sqft := clean_sqft r.total_sqft }).filter
    fun r => !isNa r.size

/-- load_data (app.py lines 12 to 41) without the file read: clean
total_sqft, drop missing sizes, derive BHK (which may raise), drop rows
with a missing critical cell, compute price_per_sqft (which may raise on
ill-typed cells), and keep the rows with BHK below ten. -/
def load_data (rows : List RawRecord) : Except Unit (List Row) :=
  match mapE withBHK (prepRows rows) with
  | Except.error e => Except.error e
  | Except.ok s3 =>
    match mapE ppsStep (s3.filter keepRow) with
    | Except.error e => Except.error e
    | Except.ok s5 => Except.ok (s5.filter bhkUnderTen)

/-- The five charts of app.py (plot_1 to plot_5). -/
inductive Chart : Type where
  | priceDistribution : Chart
  | bhkVsPrice : Chart
  | topLocations : Chart
  | scatterSqftPrice : Chart
  | areaTypeDistribution : Chart
deriving DecidableEq

/-- The selection dispatch of app.py lines 103 to 112: an if chain on
startswith with the digit prefixes 1 to 5, in that order, and no else
branch, so an unmatched selection renders nothing. -/
def dispatchPlot (s : PyStr) : Option Chart :=
  if startsWithStr s ['1'] then some Chart.priceDistribution
  else if startsWithStr s ['2'] then some Chart.bhkVsPrice
  else if startsWithStr s ['3'] then some Chart.topLocations
  else if startsWithStr s ['4'] then some Chart.scatterSqftPrice
  else if startsWithStr s ['5'] then some Chart.areaTypeDistribution
  else none

/-- A size cell whose derivation step cannot raise: either it is not a
string containing BHK or Bedroom (so the lambda yields NaN), or its
leading token parses as an int. -/
def sizeSafe : Cell → Bool
  | Cell.str s =>
    !(containsStr s bhkTok || containsStr s bedroomTok)
      || (pyInt (firstPart (splitOnChar ' ' s))).isSome
  | _ => true

/- General lemmas about the pipeline combinators. -/

lemma mapE_ok_mem {α β : Type} {f : α → Except Unit β} :
    ∀ {l : List α} {l2 : List β}, mapE f l = Except.ok l2 → ∀ {b : β}, b ∈ l2 →
      ∃ a, a ∈ l ∧ f a = Except.ok b := by
  intro l
  induction l with
  | nil =>
    intro l2 h b hb
    simp only [mapE, Except.ok.injEq] at h
    subst h
    simp at hb
  | cons a l ih =>
    intro l2 h b hb
    simp only [mapE] at h
    split at h
    · exact Except.noConfusion h
    · rename_i b0 hfa
      split at h
      · exact Except.noConfusion h
      · rename_i l3 hl3
        rw [Except.ok.injEq] at h
        subst h
        rcases List.mem_cons.mp hb with hb | hb
        · subst hb
          exact ⟨a, List.mem_cons_self a l, hfa⟩
        · obtain ⟨a2, ha2, hfa2⟩ := ih hl3 hb
          exact ⟨a2, List.mem_cons_of_mem a ha2, hfa2⟩

lemma splitOnChar_of_not_contains {c : Char} :
    ∀ {s : PyStr}, containsChar c s = false → splitOnChar c s = [s] := by
  intro s
  induction s with
  | nil => intro _; rfl
  | cons x xs ih =>
    intro h
    simp only [containsChar, Bool.or_eq_false_iff] at h
    simp [splitOnChar, ih h.2, h.1]

lemma contains_of_splitOnChar_two {c : Char} {s p q : PyStr}
    (h : splitOnChar c s = [p, q]) : containsChar c s = true := by
  rcases hc : containsChar c s
  · rw [splitOnChar_of_not_contains hc] at h
    exact absurd h (by simp)
  · rfl

lemma clean_sqft_num_or_na (x : Cell) :
    (∃ q, clean_sqft x = Cell.num q) ∨ clean_sqft x = Cell.na := by
  rcases h : sqftBody x with _ | v <;> simp [clean_sqft, h]

lemma keepRow_spec {r : Row} (h : keepRow r = true) :
    isNa r.BHK = false ∧ isNa r.total_sqft = false ∧ isNa r.price = false ∧
      isNa r.location = false := by
  simp only [keepRow, Bool.and_eq_true, Bool.not_eq_true'] at h
  exact ⟨h.1.1.1, h.1.1.2, h.1.2, h.2⟩

lemma bhkUnderTen_spec {r : Row} (h : bhkUnderTen r = true) :
    ∃ q, r.BHK = Cell.num q ∧ q < 10 := by
  unfold bhkUnderTen at h
  rcases hB : r.BHK with _ | q | s <;> rw [hB] at h <;> simp [cellLtTen] at h
  exact ⟨q, rfl, h⟩

lemma ppsStep_ok {r r2 : Row} (h : ppsStep r = Except.ok r2) :
    ∃ v, ppsVal r.price r.total_sqft = Except.ok v ∧
      r2 = { r with price_per_sqft := v } := by
  unfold ppsStep at h
  split at h
  · exact Except.noConfusion h
  · rename_i v hv
    rw [Except.ok.injEq] at h
    exact ⟨v, hv, h.symm⟩

lemma withBHK_ok {r : RawRecord} {r2 : Row} (h : withBHK r = Except.ok r2) :
    ∃ b, bhkOfSize r.size = Except.ok b ∧
      r2 = { area_type := r.area_type, size := r.size, total_sqft := r.total_sqft,
             price := r.price, location := r.location, BHK := b,
             price_per_sqft := Cell.na } := by
  unfold withBHK at h
  split at h
  · exact Except.noConfusion h
  · rename_i b hb
    rw [Except.ok.injEq] at h
    exact ⟨b, hb, h.symm⟩

lemma load_data_ok {rows : List RawRecord} {out : List Row}
    (h : load_data rows = Except.ok out) :
    ∃ s3 s5, mapE withBHK (prepRows rows) = Except.ok s3 ∧
      mapE ppsStep (s3.filter keepRow) = Except.ok s5 ∧
      out = s5.filter bhkUnderTen := by
  unfold load_data at h
  split at h
  · exact Except.noConfusion h
  · rename_i s3 h3
    split at h
    · exact Except.noConfusion h
    · rename_i s5 h5
      rw [Except.ok.injEq] at h
      exact ⟨s3, s5, h3, h5, h.symm⟩

lemma mem_cleaned {rows : List RawRecord} {out : List Row} {r : Row}
    (h : load_data rows = Except.ok out) (hr : r ∈ out) :
    ∃ r4, keepRow r4 = true ∧ ppsStep r4 = Except.ok r ∧ bhkUnderTen r = true ∧
      ∃ raw, raw ∈ prepRows rows ∧ withBHK raw = Except.ok r4 := by
  obtain ⟨s3, s5, h3, h5, hout⟩ := load_data_ok h
  subst hout
  rw [List.mem_filter] at hr
  obtain ⟨hr5, hb⟩ := hr
  obtain ⟨r4, hr4, hpps⟩ := mapE_ok_mem h5 hr5
  rw [List.mem_filter] at hr4
  exact ⟨r4, hr4.2, hpps, hb, mapE_ok_mem h3 hr4.1⟩

lemma mem_prepRows {rows : List RawRecord} {raw : RawRecord} (h : raw ∈ prepRows rows) :
    isNa raw.size = false ∧
      ∃ r0, r0 ∈ rows ∧ raw = { r0 with total_sqft := clean_sqft r0.total_sqft } := by
  unfold prepRows at h
  rw [List.mem_filter] at h
  obtain ⟨hm, hs⟩ := h
  rw [List.mem_map] at hm
  obtain ⟨r0, hr0, hmap⟩ := hm
  exact ⟨by simpa using hs, r0, hr0, hmap.symm⟩

/-- C1: a record appears in the cleaned table only if its derived BHK, cleaned
total_sqft, price, and location are all non-missing, and every record of the
cleaned table has BHK strictly below ten. -/
theorem C1_cleaned_invariant (rows : List RawRecord) (out : List Row)
    (h : load_data rows = Except.ok out) :
    ∀ r ∈ out,
      (isNa r.BHK = false ∧ isNa r.total_sqft = false ∧ isNa r.price = false ∧
        isNa r.location = false) ∧ ∃ q, r.BHK = Cell.num q ∧ q < 10 := by
  intro r hr
  obtain ⟨r4, hkeep, hpps, hten, -⟩ := mem_cleaned h hr
  obtain ⟨v, hv, req⟩ := ppsStep_ok hpps
  subst req
  obtain ⟨h1, h2, h3, h4⟩ := keepRow_spec hkeep
  exact ⟨⟨h1, h2, h3, h4⟩, bhkUnderTen_spec hten⟩

/-- Concrete raw record used to witness C1. -/
def w1raw : RawRecord :=
  { area_type := Cell.str ['A'], size := Cell.str ['3', ' ', 'B', 'H', 'K'],
    total_sqft := Cell.str ['1', '2', '0', '0'], price := Cell.num 60,
    location := Cell.str ['L'] }

/-- The cleaned row load_data produces from w1raw. -/
def w1out : Row :=
  { area_type := Cell.str ['A'], size := Cell.str ['3', ' ', 'B', 'H', 'K'],
    total_sqft := Cell.num 1200, price := Cell.num 60, location := Cell.str ['L'],
    BHK := Cell.num 3, price_per_sqft := Cell.num 5000 }

/-- Witness for C1 at a concrete one-row table. -/
theorem C1_witness :
    (isNa w1out.BHK = false ∧ isNa w1out.total_sqft = false ∧
      isNa w1out.price = false ∧ isNa w1out.location = false) ∧
      ∃ q, w1out.BHK = Cell.num q ∧ q < 10 :=
  C1_cleaned_invariant [w1raw] [w1out] (by with_unfolding_all rfl) w1out
    (List.mem_singleton.mpr rfl)

/-- C2 as stated is false: a total_sqft string may contain more than one
hyphen, and then the cleaned value is the mean of all the parts, not of the
two endpoints.  On the input string 1-2-6 the code yields (1+2+6)/3 = 3,
while the mean of the endpoints 1 and 6 is 3.5. -/
theorem C2_counterexample :
    clean_sqft (Cell.str ['1', '-', '2', '-', '6']) = Cell.num 3 ∧
      Cell.num 3 ≠ Cell.num ((1 + 6) / 2 : ℚ) := by
  constructor
  · with_unfolding_all rfl
  · intro h
    rw [Cell.num.injEq] at h
    norm_num at h

lemma mapO_some_of_map {α β : Type} {f : α → Option β} :
    ∀ {l : List α} {vals : List β}, l.map f = vals.map some → mapO f l = some vals := by
  intro l
  induction l with
  | nil =>
    intro vals h
    cases vals with
    | nil => rfl
    | cons v vs => simp at h
  | cons a l ih =>
    intro vals h
    cases vals with
    | nil => simp at h
    | cons v vs =>
      simp only [List.map_cons, List.cons.injEq] at h
      simp only [mapO, h.1, ih h.2]

lemma mapO_none_of_mem {α β : Type} {f : α → Option β} :
    ∀ {l : List α} {p : α}, p ∈ l → f p = none → mapO f l = none := by
  intro l
  induction l with
  | nil =>
    intro p hp _
    simp at hp
  | cons a l ih =>
    intro p hp hnone
    rcases List.mem_cons.mp hp with h | h
    · subst h
      simp [mapO, hnone]
    · rcases hfa : f a with _ | b
      · simp [mapO, hfa]
      · simp [mapO, hfa, ih h hnone]

/-- C2 amended: for every total_sqft string containing a hyphen, the code
splits at every hyphen; if every part (stripped) parses as a float, the
cleaned value is the arithmetic mean of all the parts, and the cell is
missing as soon as any part fails to parse.  In particular, when the split
yields exactly two parts a and b, the cleaned value is (a + b) / 2. -/
theorem C2_mean_of_parts (s : PyStr) (vals : List ℚ)
    (hc : containsChar '-' s = true) :
    ((splitOnChar '-' s).map (fun p => pyFloat (pyStrip p)) = vals.map some →
      clean_sqft (Cell.str s) = Cell.num (vals.sum / (vals.length : ℚ))) ∧
    ((∃ p, p ∈ splitOnChar '-' s ∧ pyFloat (pyStrip p) = none) →
      clean_sqft (Cell.str s) = Cell.na) ∧
    (∀ p q : PyStr, ∀ a b : ℚ, splitOnChar '-' s = [p, q] →
      pyFloat (pyStrip p) = some a → pyFloat (pyStrip q) = some b →
      clean_sqft (Cell.str s) = Cell.num ((a + b) / 2)) := by
  refine ⟨?_, ?_, ?_⟩
  · intro h
    have hm := mapO_some_of_map h
    simp [clean_sqft, sqftBody, hc, hm, listMean]
  · intro h
    obtain ⟨p, hp, hnone⟩ := h
    have hm := @mapO_none_of_mem PyStr ℚ (fun z => pyFloat (pyStrip z))
      (splitOnChar '-' s) p hp hnone
    simp [clean_sqft, sqftBody, hc, hm]
  · intro p q a b hsplit hp hq
    have hm : mapO (fun z => pyFloat (pyStrip z)) (splitOnChar '-' s) = some [a, b] := by
      rw [hsplit]
      simp [mapO, hp, hq]
    simp [clean_sqft, sqftBody, hc, hm, listMean]

/-- Witness for C2: the mean of all parts on the three-part string 1-2-6,
and the endpoint mean on the concrete range string 1000 - 1200. -/
theorem C2_witness :
    clean_sqft (Cell.str ['1', '-', '2', '-', '6']) =
      Cell.num (([1, 2, 6] : List ℚ).sum / ((([1, 2, 6] : List ℚ).length : ℕ) : ℚ)) ∧
    clean_sqft (Cell.str ['1', '0', '0', '0', ' ', '-', ' ', '1', '2', '0', '0']) =
      Cell.num ((1000 + 1200) / 2) :=
  ⟨(C2_mean_of_parts ['1', '-', '2', '-', '6'] [1, 2, 6]
      (by with_unfolding_all rfl)).1 (by with_unfolding_all rfl),
    (C2_mean_of_parts ['1', '0', '0', '0', ' ', '-', ' ', '1', '2', '0', '0'] []
        (by with_unfolding_all rfl)).2.2 ['1', '0', '0', '0', ' '] [' ', '1', '2', '0', '0']
      1000 1200 (by with_unfolding_all rfl) (by with_unfolding_all rfl)
      (by with_unfolding_all rfl)⟩

/-- C3 as stated is false: the derived BHK need not be positive.  On the
size string 0 BHK the code derives BHK = 0, which is not a positive
integer (and such a row survives all later filters). -/
theorem C3_counterexample :
    bhkOfSize (Cell.str ['0', ' ', 'B', 'H', 'K']) = Except.ok (Cell.num 0) ∧
      ¬ 0 < (0 : ℚ) := by
  constructor
  · with_unfolding_all rfl
  · exact lt_irrefl 0

/-- C3 amended: for a size cell that survives the missing-size drop,
derived BHK equals the leading space-delimited token of size parsed as a
Python int (an integer that may be zero or negative) whenever size is
textual and contains the substring BHK or Bedroom; BHK is missing when the
substrings are absent, and also when size is not textual. -/
theorem C3_bhk_value (s : PyStr) (n : ℤ) (x : ℚ) :
    ((containsStr s bhkTok || containsStr s bedroomTok) = true →
      pyInt (firstPart (splitOnChar ' ' s)) = some n →
      bhkOfSize (Cell.str s) = Except.ok (Cell.num (n : ℚ))) ∧
    ((containsStr s bhkTok || containsStr s bedroomTok) = false →
      bhkOfSize (Cell.str s) = Except.ok Cell.na) ∧
    bhkOfSize (Cell.num x) = Except.ok Cell.na := by
  refine ⟨?_, ?_, rfl⟩
  · intro hc hp
    simp [bhkOfSize, hc, hp]
  · intro hc
    simp [bhkOfSize, hc]

/-- Witness for C3 on the size string 2 BHK. -/
theorem C3_witness :
    bhkOfSize (Cell.str ['2', ' ', 'B', 'H', 'K']) = Except.ok (Cell.num ((2 : ℤ) : ℚ)) :=
  (C3_bhk_value ['2', ' ', 'B', 'H', 'K'] 2 0).1 (by with_unfolding_all rfl)
    (by with_unfolding_all rfl)

/-- C4 as stated is false: a malformed size token does not always degrade
to missing.  On a one-row table whose size is the string x BHK (which
contains BHK but whose leading token is not an integer), load_data raises. -/
def w4raw : RawRecord :=
  { area_type := Cell.str ['A'], size := Cell.str ['x', ' ', 'B', 'H', 'K'],
    total_sqft := Cell.str ['1', '0', '0'], price := Cell.num 50,
    location := Cell.str ['L'] }

/-- C4 counterexample: the cleaning pipeline raises on w4raw. -/
theorem C4_counterexample : load_data [w4raw] = Except.error () := by
  with_unfolding_all rfl

/-- C4 amended: a malformed total_sqft token never raises (the cell always
comes out as a number or as missing), and the size derivation never raises
exactly on safe size cells: it raises precisely when size is a string that
contains BHK or Bedroom but whose leading token does not parse as an int. -/
theorem C4_parse_failures (x : Cell) (s : PyStr) :
    ((∃ q, clean_sqft x = Cell.num q) ∨ clean_sqft x = Cell.na) ∧
    (sizeSafe (Cell.str s) = true → ∃ c, bhkOfSize (Cell.str s) = Except.ok c) ∧
    (sizeSafe (Cell.str s) = false → bhkOfSize (Cell.str s) = Except.error ()) := by
  refine ⟨clean_sqft_num_or_na x, ?_, ?_⟩
  · intro hs
    rcases hc : (containsStr s bhkTok || containsStr s bedroomTok) with _ | _
    · exact ⟨Cell.na, by simp [bhkOfSize, hc]⟩
    · simp only [sizeSafe, hc, Bool.not_true, Bool.false_or] at hs
      rcases hp : pyInt (firstPart (splitOnChar ' ' s)) with _ | n
      · rw [hp] at hs
        simp at hs
      · exact ⟨Cell.num (n : ℚ), by simp [bhkOfSize, hc, hp]⟩
  · intro hs
    rcases hc : (containsStr s bhkTok || containsStr s bedroomTok) with _ | _
    · simp [sizeSafe, hc] at hs
    · simp only [sizeSafe, hc, Bool.not_true, Bool.false_or] at hs
      rcases hp : pyInt (firstPart (splitOnChar ' ' s)) with _ | n
      · simp [bhkOfSize, hc, hp]
      · rw [hp] at hs
        simp at hs

/-- Witness for C4 on a malformed total_sqft cell and a safe size cell. -/
theorem C4_witness :
    ((∃ q, clean_sqft (Cell.str ['a', 'b', 'c']) = Cell.num q) ∨
      clean_sqft (Cell.str ['a', 'b', 'c']) = Cell.na) ∧
    (∃ c, bhkOfSize (Cell.str ['2', ' ', 'B', 'H', 'K']) = Except.ok c) :=
  ⟨(C4_parse_failures (Cell.str ['a', 'b', 'c']) ['2', ' ', 'B', 'H', 'K']).1,
    (C4_parse_failures (Cell.str ['a', 'b', 'c']) ['2', ' ', 'B', 'H', 'K']).2.1
      (by with_unfolding_all rfl)⟩

/-- C5 as stated is false: the non-hyphen branch splits total_sqft at the
space character only, not at arbitrary whitespace.  On the string 12 TAB 34
(a tab between 12 and 34) the code fails to parse and yields missing, while
the substring before the first whitespace character would parse as 12. -/
theorem C5_counterexample :
    clean_sqft (Cell.str ['1', '2', '\t', '3', '4']) = Cell.na ∧
      Cell.na ≠ Cell.num 12 := by
  constructor
  · with_unfolding_all rfl
  · intro h
    exact Cell.noConfusion h

/-- C5 amended: for a total_sqft string with no hyphen, the cleaned value
is the prefix of the string before the first space character, parsed as a
Python float (which itself tolerates surrounding whitespace), and the cell
is missing when that prefix does not parse. -/
theorem C5_space_split (s : PyStr) (a : ℚ) (hnd : containsChar '-' s = false) :
    (pyFloat (firstPart (splitOnChar ' ' s)) = some a →
      clean_sqft (Cell.str s) = Cell.num a) ∧
    (pyFloat (firstPart (splitOnChar ' ' s)) = none →
      clean_sqft (Cell.str s) = Cell.na) := by
  constructor <;> intro h <;> simp [clean_sqft, sqftBody, hnd, h]

/-- Witness for C5 on the string 1000 Sq. Meter. -/
theorem C5_witness :
    clean_sqft (Cell.str
        ['1', '0', '0', '0', ' ', 'S', 'q', '.', ' ', 'M', 'e', 't', 'e', 'r']) =
      Cell.num 1000 :=
  (C5_space_split ['1', '0', '0', '0', ' ', 'S', 'q', '.', ' ', 'M', 'e', 't', 'e', 'r']
      1000 (by with_unfolding_all rfl)).1 (by with_unfolding_all rfl)

/-- Raw record with a negative numeric total_sqft, used against C6. -/
def w6raw : RawRecord :=
  { area_type := Cell.str ['A'], size := Cell.str ['2', ' ', 'B', 'H', 'K'],
    total_sqft := Cell.num (-5), price := Cell.num 50, location := Cell.str ['L'] }

/-- The cleaned row load_data produces from w6raw. -/
def w6out : Row :=
  { area_type := Cell.str ['A'], size := Cell.str ['2', ' ', 'B', 'H', 'K'],
    total_sqft := Cell.num (-5), price := Cell.num 50, location := Cell.str ['L'],
    BHK := Cell.num 2, price_per_sqft := Cell.num (50 * 100000 / (-5)) }

/-- C6 as stated is false: a negative total_sqft survives cleaning.  A raw
record whose total_sqft cell is the number -5 (with every other field valid)
passes every filter and appears in the cleaned table with total_sqft -5. -/
theorem C6_counterexample :
    load_data [w6raw] = Except.ok [w6out] ∧ w6out.total_sqft = Cell.num (-5) ∧
      (-5 : ℚ) < 0 := by
  refine ⟨by with_unfolding_all rfl, rfl, by norm_num⟩

/-- C6 amended: every record of the cleaned table carries an actual number
in total_sqft (never the missing marker), but the code enforces no sign or
finiteness condition: negative raw numbers survive as such. -/
theorem C6_sqft_not_missing (rows : List RawRecord) (out : List Row)
    (h : load_data rows = Except.ok out) :
    ∀ r ∈ out, ∃ q, r.total_sqft = Cell.num q := by
  intro r hr
  obtain ⟨r4, hkeep, hpps, -, raw, hraw, hwb⟩ := mem_cleaned h hr
  obtain ⟨v, -, req⟩ := ppsStep_ok hpps
  subst req
  obtain ⟨b, -, r4eq⟩ := withBHK_ok hwb
  obtain ⟨-, r0, -, raweq⟩ := mem_prepRows hraw
  have ht4 : r4.total_sqft = clean_sqft r0.total_sqft := by rw [r4eq, raweq]
  have h2 := keepRow_spec hkeep
  rcases clean_sqft_num_or_na r0.total_sqft with ⟨q, hq⟩ | hna
  · refine ⟨q, ?_⟩
    show r4.total_sqft = Cell.num q
    rw [ht4, hq]
  · exfalso
    have h3 := h2.2.1
    rw [ht4, hna] at h3
    simp [isNa] at h3

/-- Witness for the amended C6 at the concrete table [w6raw]. -/
theorem C6_witness : ∃ q, w6out.total_sqft = Cell.num q :=
  C6_sqft_not_missing [w6raw] [w6out] (by with_unfolding_all rfl) w6out
    (List.mem_singleton.mpr rfl)

/-- C7: on every surviving record whose price and total_sqft are the numbers
p and t with t positive, price_per_sqft equals p * 100000 / t, and
multiplying back by total_sqft recovers p * 100000 exactly (the embedding
computes in the rationals, so the floating-point tolerance is zero). -/
theorem C7_pps_roundtrip (rows : List RawRecord) (out : List Row)
    (h : load_data rows = Except.ok out) :
    ∀ r ∈ out, ∀ p t : ℚ, r.price = Cell.num p → r.total_sqft = Cell.num t →
      0 < t →
      r.price_per_sqft = Cell.num (p * 100000 / t) ∧
        p * 100000 / t * t = p * 100000 := by
  intro r hr p t hp ht htpos
  obtain ⟨r4, -, hpps, -, -⟩ := mem_cleaned h hr
  obtain ⟨v, hv, req⟩ := ppsStep_ok hpps
  subst req
  have hp4 : r4.price = Cell.num p := hp
  have ht4 : r4.total_sqft = Cell.num t := ht
  rw [hp4, ht4] at hv
  simp only [ppsVal, Except.ok.injEq] at hv
  constructor
  · show v = Cell.num (p * 100000 / t)
    exact hv.symm
  · exact div_mul_cancel₀ (p * 100000) (ne_of_gt htpos)

/-- Raw record used to witness C7. -/
def w7raw : RawRecord :=
  { area_type := Cell.str ['A'], size := Cell.str ['4', ' ', 'B', 'H', 'K'],
    total_sqft := Cell.str ['2', '0', '0', '0'], price := Cell.num 90,
    location := Cell.str ['M'] }

/-- The cleaned row load_data produces from w7raw. -/
def w7out : Row :=
  { area_type := Cell.str ['A'], size := Cell.str ['4', ' ', 'B', 'H', 'K'],
    total_sqft := Cell.num 2000, price := Cell.num 90, location := Cell.str ['M'],
    BHK := Cell.num 4, price_per_sqft := Cell.num (90 * 100000 / 2000) }

/-- Witness for C7 at the concrete table [w7raw]. -/
theorem C7_witness :
    w7out.price_per_sqft = Cell.num (90 * 100000 / 2000) ∧
      (90 : ℚ) * 100000 / 2000 * 2000 = 90 * 100000 :=
  C7_pps_roundtrip [w7raw] [w7out] (by with_unfolding_all rfl) w7out
    (List.mem_singleton.mpr rfl) 90 2000 rfl rfl (by norm_num)

/-- First raw record of the C8 end-to-end scenario. -/
def w8raw1 : RawRecord :=
  { area_type := Cell.str ['S', 'u', 'p', 'e', 'r', ' ', 'b', 'u', 'i', 'l', 't', '-', 'u', 'p'],
    size := Cell.str ['2', ' ', 'B', 'H', 'K'],
    total_sqft := Cell.str ['1', '0', '0', '0', ' ', '-', ' ', '1', '2', '0', '0'],
    price := Cell.num 50, location := Cell.str ['X'] }

/-- Second raw record of the C8 end-to-end scenario (the Studio row). -/
def w8raw2 : RawRecord :=
  { area_type := Cell.str ['P', 'l', 'o', 't'],
    size := Cell.str ['S', 't', 'u', 'd', 'i', 'o'],
    total_sqft := Cell.str ['5', '0', '0'], price := Cell.num 20,
    location := Cell.str ['Y'] }

/-- The single cleaned row of the C8 scenario. -/
def w8out : Row :=
  { area_type := Cell.str ['S', 'u', 'p', 'e', 'r', ' ', 'b', 'u', 'i', 'l', 't', '-', 'u', 'p'],
    size := Cell.str ['2', ' ', 'B', 'H', 'K'],
    total_sqft := Cell.num 1100, price := Cell.num 50, location := Cell.str ['X'],
    BHK := Cell.num 2, price_per_sqft := Cell.num (50 * 100000 / 1100) }

/-- C8: on the two-row scenario table the Loader/Cleaner yields exactly one
row, the Studio row being dropped, with BHK 2, total_sqft 1100 and
price_per_sqft 50 * 100000 / 1100 (= 50000/11, about 4545.45). -/
theorem C8_end_to_end :
    load_data [w8raw1, w8raw2] = Except.ok [w8out] ∧
      w8out.BHK = Cell.num 2 ∧ w8out.total_sqft = Cell.num 1100 ∧
      w8out.price_per_sqft = Cell.num (50 * 100000 / 1100) :=
  ⟨by with_unfolding_all rfl, rfl, rfl, rfl⟩

/-- C9: a selection recognised by none of the five startswith branches
renders no chart: the dispatch returns nothing and raises nothing. -/
theorem C9_unknown_noop (s : PyStr)
    (h1 : startsWithStr s ['1'] = false) (h2 : startsWithStr s ['2'] = false)
    (h3 : startsWithStr s ['3'] = false) (h4 : startsWithStr s ['4'] = false)
    (h5 : startsWithStr s ['5'] = false) :
    dispatchPlot s = none := by
  simp [dispatchPlot, h1, h2, h3, h4, h5]

/-- Witness for C9 on a concrete unrecognised selection string. -/
theorem C9_witness : dispatchPlot ['N', 'o', 'n', 'e'] = none :=
  C9_unknown_noop ['N', 'o', 'n', 'e'] rfl rfl rfl rfl rfl

/-- C10: the dispatch looks only at the first character: a selection
starting with the digit 1 to 5 renders the corresponding chart whatever the
rest of the string is (the five branches being tried in this order). -/
theorem C10_first_char_dispatch (rest : PyStr) :
    dispatchPlot ('1' :: rest) = some Chart.priceDistribution ∧
    dispatchPlot ('2' :: rest) = some Chart.bhkVsPrice ∧
    dispatchPlot ('3' :: rest) = some Chart.topLocations ∧
    dispatchPlot ('4' :: rest) = some Chart.scatterSqftPrice ∧
    dispatchPlot ('5' :: rest) = some Chart.areaTypeDistribution := by
  refine ⟨?_, ?_, ?_, ?_, ?_⟩ <;> simp [dispatchPlot, startsWithStr]

/-- Witness for C10 at a concrete one-character tail. -/
theorem C10_witness :
    dispatchPlot ('1' :: ['x']) = some Chart.priceDistribution ∧
    dispatchPlot ('2' :: ['x']) = some Chart.bhkVsPrice ∧
    dispatchPlot ('3' :: ['x']) = some Chart.topLocations ∧
    dispatchPlot ('4' :: ['x']) = some Chart.scatterSqftPrice ∧
    dispatchPlot ('5' :: ['x']) = some Chart.areaTypeDistribution :=
  C10_first_char_dispatch ['x']
